import Mathlib

/-!
Shallow embedding of the booking/search core of the travel-booking app
(`src/main.py`): the search filter `do_search_and_cache`, the session
selection state, the `BookingDB` store (`save`, `list_recent`), and the
"Confirm & Save Booking" handler.

Modelling conventions:
* pandas dataframes become Lean lists of records; `sort_values` (a
  comparison sort) is embedded as `List.insertionSort` with the same key;
* numeric CSV columns (`price_usd`, `price_per_night`, `rating`,
  `availability_rooms`) are modelled as `Int`: every claim is about
  ordering and comparison, which is identical over any linear order;
* Python values that may be `int` or `str` (record identifiers) are a sum
  type `PyVal`, and Python's `str(...)` is `pyStr`;
* the sqlite table is a list of rows plus the AUTOINCREMENT counter;
  `CURRENT_TIMESTAMP` becomes an explicit `now : Nat` argument to `save`;
* the serialized `flight_json` / `hotel_json` columns store the record
  value itself (standing for its JSON serialization, which the claims
  never inspect).
-/

namespace TravelApp

/-- A Python scalar that is either an `int` or a `str` (used for the
`flight_id` / `hotel_id` CSV columns, whose dtype depends on the data). -/
inductive PyVal where
  | int (n : Int)
  | str (s : String)
deriving DecidableEq, Repr

/-- Python's `str(...)` on a `PyVal`. -/
def pyStr : PyVal → String
  | .int n => toString n
  | .str s => s

/-- One row of `flights.csv` as consumed by the app. -/
structure Flight where
  flight_id : PyVal
  airline : String
  flight_number : String
  origin : String
  destination : String
  depart_datetime : String
  arrive_datetime : String
  price_usd : Int
deriving DecidableEq, Repr

/-- One row of `hotels.csv` as consumed by the app. -/
structure Hotel where
  hotel_id : PyVal
  name : String
  city : String
  price_per_night : Int
  rating : Int
  availability_rooms : Int
deriving DecidableEq, Repr

/-- The `last_search` dict stored in session state by `do_search_and_cache`. -/
structure LastSearch where
  origin : String
  destination : String
  travel_date : String
  budget : Int
  nights : Nat
deriving DecidableEq, Repr

/-- The Streamlit session state fields the booking core reads and writes.
Selections are stored as strings (`_set_selected_flight` applies `str`);
`none` models Python `None`. -/
structure SessionState where
  top_flights : List Flight
  top_hotels : List Hotel
  itinerary_text : String
  last_search : Option LastSearch
  selected_flight_id : Option String
  selected_hotel_id : Option String
deriving DecidableEq, Repr

/-- Initial session state (lines 172-177 of `main.py`). -/
def initState : SessionState :=
  { top_flights := [], top_hotels := [], itinerary_text := "",
    last_search := none, selected_flight_id := none, selected_hotel_id := none }

/-- ASCII lowercasing of one character (the behaviour of Python's
`str.lower()` on the ASCII identifiers and city names this app handles). -/
def pyLowerChar (c : Char) : Char :=
  if 65 ≤ c.toNat ∧ c.toNat ≤ 90 then Char.ofNat (c.toNat + 32) else c

/-- Python's `str.lower()`. -/
def pyLower (s : String) : String := String.mk (s.data.map pyLowerChar)

/-- Python's `str.strip()`: remove leading and trailing whitespace. -/
def pyStrip (s : String) : String :=
  String.mk (((s.data.dropWhile Char.isWhitespace).reverse.dropWhile
    Char.isWhitespace).reverse)

/-- Does the second character list begin the first?  (helper) -/
def swAux : List Char → List Char → Bool
  | [], _ => true
  | _ :: _, [] => false
  | p :: ps, c :: cs => p == c && swAux ps cs

/-- Python's `s.startswith(pre)`. -/
def pyStartswith (s pre : String) : Bool := swAux pre.data s.data

/-- The flight filter of `do_search_and_cache`:
`(origin.lower() == o.strip().lower()) & (destination.lower() == d.strip().lower())
 & depart_datetime.startswith(dt_str)`. -/
def flightPred (o d dt_str : String) (f : Flight) : Bool :=
  pyLower f.origin == pyLower (pyStrip o) &&
  pyLower f.destination == pyLower (pyStrip d) &&
  pyStartswith f.depart_datetime dt_str

/-- The hotel filter of `do_search_and_cache`:
`(city.lower() == d.strip().lower()) & (price_per_night <= bud) & (availability_rooms > 0)`. -/
def hotelPred (d : String) (bud : Int) (h : Hotel) : Bool :=
  pyLower h.city == pyLower (pyStrip d) &&
  decide (h.price_per_night ≤ bud) &&
  decide (h.availability_rooms > 0)

/-- The flight sort key of `sort_values("price_usd")`. -/
def flightLe (a b : Flight) : Prop := a.price_usd ≤ b.price_usd

instance (a b : Flight) : Decidable (flightLe a b) :=
  inferInstanceAs (Decidable (a.price_usd ≤ b.price_usd))

instance : IsTotal Flight flightLe := ⟨fun a b => Int.le_total a.price_usd b.price_usd⟩

instance : IsTrans Flight flightLe := ⟨fun _ _ _ => Int.le_trans⟩

/-- The hotel sort key of `sort_values(["price_per_night","rating"])`:
lexicographic, both components ascending (pandas default). -/
def hotelLe (a b : Hotel) : Prop :=
  a.price_per_night < b.price_per_night ∨
    (a.price_per_night = b.price_per_night ∧ a.rating ≤ b.rating)

instance (a b : Hotel) : Decidable (hotelLe a b) :=
  inferInstanceAs (Decidable (_ ∨ (_ ∧ _)))

instance : IsTotal Hotel hotelLe := by
  constructor
  intro a b
  rcases lt_trichotomy a.price_per_night b.price_per_night with h | h | h
  · exact Or.inl (Or.inl h)
  · rcases Int.le_total a.rating b.rating with hr | hr
    · exact Or.inl (Or.inr ⟨h, hr⟩)
    · exact Or.inr (Or.inr ⟨h.symm, hr⟩)
  · exact Or.inr (Or.inl h)

instance : IsTrans Hotel hotelLe := by
  constructor
  intro a b c hab hbc
  rcases hab with hab | ⟨hab, har⟩ <;> rcases hbc with hbc | ⟨hbc, hbr⟩
  · exact Or.inl (hab.trans hbc)
  · exact Or.inl (hbc ▸ hab)
  · exact Or.inl (hab ▸ hbc)
  · exact Or.inr ⟨hab.trans hbc, har.trans hbr⟩

/-- `do_search_and_cache(o, d, dt_str, bud, nights_val)` (lines 233-247):
filter and sort both datasets, keep the first 12 of each, store the first
8 in session state, clear the itinerary text and record `last_search`.
The flight and hotel datasets are the module-level `flights_df_all` /
`hotels_df_all`, passed here explicitly. -/
def do_search_and_cache (flights_df_all : List Flight) (hotels_df_all : List Hotel)
    (st : SessionState) (o d dt_str : String) (bud : Int) (nights_val : Nat) :
    SessionState :=
  let fl := ((flights_df_all.filter (flightPred o d dt_str)).insertionSort flightLe).take 12
  let ho := ((hotels_df_all.filter (hotelPred d bud)).insertionSort hotelLe).take 12
  { st with
    top_flights := fl.take 8,
    top_hotels := ho.take 8,
    itinerary_text := "",
    last_search := some ⟨o, d, dt_str, bud, nights_val⟩ }

/-- `_set_selected_flight(fid)`: stores `str(fid)` in session state. -/
def set_selected_flight (st : SessionState) (fid : PyVal) : SessionState :=
  { st with selected_flight_id := some (pyStr fid) }

/-- `_set_selected_hotel(hid)`: stores `str(hid)` in session state. -/
def set_selected_hotel (st : SessionState) (hid : PyVal) : SessionState :=
  { st with selected_hotel_id := some (pyStr hid) }

/-- `next((f for f in top_flights if str(f["flight_id"]) == str(sel_f)), None)`
(lines 312 and 334; `sel_f` is already a string, so `str(sel_f)` is it). -/
def resolveFlight (sel : String) (fl : List Flight) : Option Flight :=
  fl.find? (fun f => pyStr f.flight_id == sel)

/-- `next((h for h in top_hotels if str(h["hotel_id"]) == str(sel_h)), None)`
(lines 322 and 335). -/
def resolveHotel (sel : String) (hs : List Hotel) : Option Hotel :=
  hs.find? (fun h => pyStr h.hotel_id == sel)

/-! ### Booking store (`BookingDB`, lines 58-83) -/

/-- One row of the sqlite `bookings` table.  `flight_json` / `hotel_json`
hold the selected records (standing for their JSON serialization);
`created_at` is the insertion timestamp. -/
structure Booking where
  id : Nat
  origin : String
  destination : String
  travel_date : String
  flight_json : Flight
  hotel_json : Hotel
  itinerary : String
  created_at : Nat
deriving DecidableEq, Repr

/-- The sqlite store: rows in insertion order plus the AUTOINCREMENT
counter (`next_id` is the primary key the next `INSERT` will receive;
sqlite AUTOINCREMENT starts at 1 and never reuses keys). -/
structure BookingDB where
  rows : List Booking
  next_id : Nat
deriving DecidableEq, Repr

/-- A freshly created store (empty `bookings` table). -/
def emptyDB : BookingDB := ⟨[], 1⟩

/-- Decimal digit character for `n < 10`. -/
def digitCharOf (n : Nat) : Char := Char.ofNat (48 + n)

/-- Decimal digits of `n`, most significant first (fuel-driven so that it
is structural and kernel-reducible). -/
def decCharsAux : Nat → Nat → List Char
  | 0, _ => []
  | fuel + 1, n =>
    if n < 10 then [digitCharOf n]
    else decCharsAux fuel (n / 10) ++ [digitCharOf (n % 10)]

/-- Decimal digits of `n`, most significant first, no leading zeros
(`"0"` for zero) — the digits of Python's `str(n)` for `n ≥ 0`. -/
def decChars (n : Nat) : List Char := decCharsAux (n + 1) n

/-- Python's `f"{n:06d}"` for `n ≥ 0`: the decimal digits of `n`,
left-padded with `'0'` to at least 6 characters. -/
def pad6 (n : Nat) : List Char :=
  List.replicate (6 - (decChars n).length) '0' ++ decChars n

/-- The confirmation code `f"TRV-{booking_id:06d}"` (line 80). -/
def confirmation_code (booking_id : Nat) : String :=
  "TRV-" ++ String.mk (pad6 booking_id)

/-- The dict returned by `BookingDB.save`. -/
structure Receipt where
  booking_id : Nat
  code : String
deriving DecidableEq, Repr

/-- `BookingDB.save(origin, destination, travel_date, flight_obj, hotel_obj,
itinerary)` (lines 72-80): INSERT a new row, commit, and return the new
primary key (`cur.lastrowid`) with its confirmation code.  `now` is the
wall clock supplying the `created_at` default. -/
def BookingDB.save (db : BookingDB) (origin destination travel_date : String)
    (flight_obj : Flight) (hotel_obj : Hotel) (itinerary : String) (now : Nat) :
    BookingDB × Receipt :=
  let booking_id := db.next_id
  (⟨db.rows ++ [⟨booking_id, origin, destination, travel_date,
      flight_obj, hotel_obj, itinerary, now⟩], booking_id + 1⟩,
   ⟨booking_id, confirmation_code booking_id⟩)

/-- The projection `SELECT id,origin,destination,travel_date,created_at`
used by `list_recent` — the summary row carries only these five columns. -/
structure BookingSummary where
  id : Nat
  origin : String
  destination : String
  travel_date : String
  created_at : Nat
deriving DecidableEq, Repr

/-- Projection of a booking row onto the `list_recent` columns. -/
def Booking.summary (b : Booking) : BookingSummary :=
  ⟨b.id, b.origin, b.destination, b.travel_date, b.created_at⟩

/-- The `ORDER BY created_at DESC` comparison. -/
def createdGe (a b : Booking) : Prop := b.created_at ≤ a.created_at

instance (a b : Booking) : Decidable (createdGe a b) :=
  inferInstanceAs (Decidable (b.created_at ≤ a.created_at))

instance : IsTotal Booking createdGe := ⟨fun a b => Nat.le_total b.created_at a.created_at⟩

instance : IsTrans Booking createdGe := ⟨fun _ _ _ hab hbc => Nat.le_trans hbc hab⟩

/-- `BookingDB.list_recent(limit)` (lines 81-82):
`SELECT id,origin,destination,travel_date,created_at FROM bookings
 ORDER BY created_at DESC LIMIT {limit}`. -/
def BookingDB.list_recent (db : BookingDB) (limit : Nat) : List BookingSummary :=
  (((db.rows.insertionSort createdGe).map Booking.summary).take limit)

/-! ### Confirm & Save Booking handler (lines 330-344) -/

/-- Python truthiness of the selection slots: `not sel` holds for `None`
and for the empty string. -/
def falsy : Option String → Bool
  | none => true
  | some s => s.isEmpty

/-- The first rejection message (line 332). -/
def msgSelectBoth : String := "Please select both a flight and a hotel before confirming."

/-- The second rejection message (line 337). -/
def msgNotFound : String := "Selected items not found in cached results. Re-run search or re-select."

/-- The body of `if st.button("Confirm & Save Booking")` (lines 330-344):
reject unless both selections are set, resolve each against the cached
result sets, reject if either lookup fails, otherwise save.  `origin`,
`destination`, `travel_dt_str` are the current form inputs used as
fallbacks when `last_search` lacks the key; `now` feeds `created_at`.
Returns the (possibly updated) store and either a receipt or the error
message shown. -/
def confirm_and_save (st : SessionState) (db : BookingDB)
    (origin destination travel_dt_str : String) (now : Nat) :
    BookingDB × Except String Receipt :=
  if falsy st.selected_flight_id || falsy st.selected_hotel_id then
    (db, .error msgSelectBoth)
  else
    match resolveFlight (st.selected_flight_id.getD "") st.top_flights,
          resolveHotel (st.selected_hotel_id.getD "") st.top_hotels with
    | some flight_obj, some hotel_obj =>
        let r := db.save
          ((st.last_search.map LastSearch.origin).getD origin)
          ((st.last_search.map LastSearch.destination).getD destination)
          ((st.last_search.map LastSearch.travel_date).getD travel_dt_str)
          flight_obj hotel_obj st.itinerary_text now
        (r.1, .ok r.2)
    | _, _ => (db, .error msgNotFound)

/-! ### Spec-side definitions (for comparison with the code's behaviour) -/

/-- Modelled from the spec: the date component of an ISO-like timestamp
string (its first 10 characters, `YYYY-MM-DD`). -/
def dateComponent (ts : String) : String := String.mk (ts.data.take 10)

/-- Modelled from the spec (claim C8's wording): flight matches when origin
and destination equal the criteria under case-insensitive,
whitespace-trimmed comparison of BOTH sides, and the departure timestamp's
date component equals the criteria travel date. -/
def flightSpecPred (o d dt_str : String) (f : Flight) : Bool :=
  pyLower (pyStrip f.origin) == pyLower (pyStrip o) &&
  pyLower (pyStrip f.destination) == pyLower (pyStrip d) &&
  dateComponent f.depart_datetime == dt_str

/-- Modelled from the spec (claim C9's wording): hotel order ascending by
price-per-night with ties broken descending by guest rating. -/
def specHotelLe (a b : Hotel) : Prop :=
  a.price_per_night < b.price_per_night ∨
    (a.price_per_night = b.price_per_night ∧ b.rating ≤ a.rating)

instance (a b : Hotel) : Decidable (specHotelLe a b) :=
  inferInstanceAs (Decidable (_ ∨ (_ ∧ _)))

/-! ### Sample data for the concrete scenarios -/

/-- The flight `F1` of the spec's example scenario. -/
def sampleF1 : Flight :=
  ⟨.str "F1", "AirIndia", "AI101", "Delhi", "Paris",
   "2025-10-05T10:00", "2025-10-05T14:00", 500⟩

/-- A non-matching flight with a different destination. -/
def sampleOtherDest : Flight :=
  ⟨.str "F2", "AirIndia", "AI202", "Delhi", "Rome",
   "2025-10-05T09:00", "2025-10-05T13:00", 420⟩

/-- A flight whose stored origin carries a leading space but otherwise
matches the `Delhi → Paris` criteria. -/
def paddedOriginFlight : Flight :=
  ⟨.str "F3", "AirIndia", "AI303", " Delhi", "Paris",
   "2025-10-05T08:00", "2025-10-05T12:00", 450⟩

/-- A Paris hotel priced exactly at the 100 budget ceiling. -/
def hotelAt100 : Hotel := ⟨.str "H1", "Hotel Centime", "Paris", 100, 4, 3⟩

/-- A Paris hotel priced at 120, above the 100 budget ceiling. -/
def hotelAt120 : Hotel := ⟨.str "H2", "Hotel Cher", "Paris", 120, 5, 2⟩

/-- A Paris hotel priced 50 with guest rating 5. -/
def hotelRating5 : Hotel := ⟨.str "HA", "Hotel Etoile", "Paris", 50, 5, 1⟩

/-- A Paris hotel priced 50 with guest rating 3 (same price, lower rating). -/
def hotelRating3 : Hotel := ⟨.str "HB", "Hotel Modeste", "Paris", 50, 3, 1⟩

/-- A flight whose identifier is the string `"7"`. -/
def strIdFlight : Flight :=
  ⟨.str "7", "AirIndia", "AI707", "Delhi", "Paris",
   "2025-10-05T10:00", "2025-10-05T14:00", 500⟩

/-- A hotel whose identifier is the integer `9`. -/
def intIdHotel : Hotel := ⟨.int 9, "Hotel Neuf", "Paris", 90, 4, 2⟩

/-- The store after five saves with strictly increasing timestamps 1..5
(destinations `b1`..`b5` so the summaries are tellable apart). -/
def dbAfter5 : BookingDB :=
  (((((emptyDB.save "a" "b1" "2025-10-05" sampleF1 hotelAt100 "" 1).1.save
      "a" "b2" "2025-10-05" sampleF1 hotelAt100 "" 2).1.save
      "a" "b3" "2025-10-05" sampleF1 hotelAt100 "" 3).1.save
      "a" "b4" "2025-10-05" sampleF1 hotelAt100 "" 4).1.save
      "a" "b5" "2025-10-05" sampleF1 hotelAt100 "" 5).1

/-- A session state holding a stale selection `"F9"` from an earlier search. -/
def staleSelState : SessionState :=
  { initState with selected_flight_id := some "F9", selected_hotel_id := some "H9" }

/-! ### Helper lemmas -/

/-- Numeric value of a decimal digit character. -/
def digitVal (c : Char) : Nat := c.toNat - 48

/-- Reading a digit string back as a number (most significant first);
leading `'0'`s are harmless. -/
def ofDec (l : List Char) : Nat := l.foldl (fun a c => a * 10 + digitVal c) 0

theorem digitVal_digitCharOf {n : Nat} (h : n < 10) : digitVal (digitCharOf n) = n := by
  interval_cases n <;> decide

theorem ofDec_append (l : List Char) (c : Char) :
    ofDec (l ++ [c]) = ofDec l * 10 + digitVal c := by
  simp [ofDec, List.foldl_append]

theorem ofDec_decCharsAux : ∀ (fuel n : Nat), n < fuel → ofDec (decCharsAux fuel n) = n := by
  intro fuel
  induction fuel with
  | zero => exact fun n h => absurd h (Nat.not_lt_zero n)
  | succ fuel ih =>
    intro n h
    by_cases h10 : n < 10
    · simp only [decCharsAux, if_pos h10]
      show ofDec ([] ++ [digitCharOf n]) = n
      rw [ofDec_append, digitVal_digitCharOf h10]
      simp [ofDec]
    · rw [decCharsAux, if_neg h10, ofDec_append,
        ih (n / 10) (by omega), digitVal_digitCharOf (Nat.mod_lt n (by omega))]
      omega

theorem ofDec_decChars (n : Nat) : ofDec (decChars n) = n :=
  ofDec_decCharsAux (n + 1) n (Nat.lt_succ_self n)

theorem ofDec_cons_zero (m : List Char) : ofDec ('0' :: m) = ofDec m := by
  have h : (0 : Nat) * 10 + digitVal '0' = 0 := by decide
  simp only [ofDec, List.foldl_cons, h]

theorem ofDec_replicate_append :
    ∀ (k : Nat) (m : List Char), ofDec (List.replicate k '0' ++ m) = ofDec m
  | 0, m => by simp
  | k + 1, m => by
    rw [List.replicate_succ, List.cons_append, ofDec_cons_zero,
      ofDec_replicate_append k m]

theorem ofDec_pad6 (n : Nat) : ofDec (pad6 n) = n := by
  rw [pad6, ofDec_replicate_append, ofDec_decChars]

theorem pad6_inj {a b : Nat} (h : pad6 a = pad6 b) : a = b := by
  have h2 := congrArg ofDec h
  rwa [ofDec_pad6, ofDec_pad6] at h2

theorem confirmation_code_data (n : Nat) :
    (confirmation_code n).data = 'T' :: 'R' :: 'V' :: '-' :: pad6 n := rfl

theorem confirmation_code_inj {a b : Nat}
    (h : confirmation_code a = confirmation_code b) : a = b := by
  have h2 := congrArg String.data h
  rw [confirmation_code_data, confirmation_code_data] at h2
  simp only [List.cons.injEq, true_and] at h2
  exact pad6_inj h2

theorem sorted_take {α : Type} {r : α → α → Prop} {l : List α}
    (h : List.Sorted r l) (n : Nat) : List.Sorted r (l.take n) :=
  List.Pairwise.sublist (List.take_sublist n l) h

theorem orderedInsert_eq_append {α : Type} {r : α → α → Prop} [DecidableRel r] (a : α) :
    ∀ (l : List α), (∀ b ∈ l, ¬ r a b) → l.orderedInsert r a = l ++ [a]
  | [], _ => rfl
  | b :: l, h => by
    rw [List.orderedInsert, if_neg (h b (List.mem_cons_self b l)),
      orderedInsert_eq_append a l (fun x hx => h x (List.mem_cons_of_mem b hx))]
    rfl

theorem insertionSort_createdGe_eq_reverse :
    ∀ (l : List Booking), l.Pairwise (fun x y => x.created_at < y.created_at) →
      l.insertionSort createdGe = l.reverse
  | [], _ => rfl
  | a :: l, h => by
    rw [List.insertionSort, insertionSort_createdGe_eq_reverse l h.of_cons,
      orderedInsert_eq_append, List.reverse_cons]
    intro b hb
    have hb' : b ∈ l := List.mem_reverse.mp hb
    have hlt := (List.pairwise_cons.mp h).1 b hb'
    intro hge
    exact absurd hlt (by unfold createdGe at hge; omega)

theorem mem_of_mem_search_hotels {flights : List Flight} {hotels : List Hotel}
    {st : SessionState} {o d dt : String} {bud : Int} {n : Nat} {h : Hotel}
    (hmem : h ∈ (do_search_and_cache flights hotels st o d dt bud n).top_hotels) :
    h ∈ hotels ∧ hotelPred d bud h = true := by
  have h1 : h ∈ (hotels.filter (hotelPred d bud)).insertionSort hotelLe := by
    have := List.mem_of_mem_take (List.mem_of_mem_take hmem)
    exact this
  have h2 : h ∈ hotels.filter (hotelPred d bud) :=
    (List.Perm.mem_iff (List.perm_insertionSort hotelLe _)).mp h1
  exact List.mem_filter.mp h2

theorem find?_eq_some_of_mem {α : Type} (p : α → Bool) :
    ∀ (l : List α) (a : α), a ∈ l → p a = true →
      ∃ b, l.find? p = some b ∧ p b = true
  | [], a, ha, _ => absurd ha (List.not_mem_nil a)
  | x :: l, a, ha, hp => by
    by_cases hx : p x = true
    · exact ⟨x, by rw [List.find?_cons_of_pos _ hx], hx⟩
    · rw [List.find?_cons_of_neg _ (by simpa using hx)]
      rcases List.mem_cons.mp ha with rfl | ha'
      · exact absurd hp hx
      · exact find?_eq_some_of_mem p l a ha' hp

/-! ### Claim theorems -/

/-- C1: every save returns a confirmation code that is exactly the literal
prefix `TRV-` followed by the booking's primary key zero-padded to 6
decimal digits; in particular a save receiving primary key 7 returns
exactly `TRV-000007`. -/
theorem save_confirmation_code_format (db : BookingDB) (o d t : String)
    (f : Flight) (h : Hotel) (it : String) (now : Nat) (rows : List Booking) :
    (db.save o d t f h it now).2.code
        = "TRV-" ++ String.mk (pad6 (db.save o d t f h it now).2.booking_id)
    ∧ ((BookingDB.mk rows 7).save o d t f h it now).2.code = "TRV-000007" :=
  ⟨rfl, by show confirmation_code 7 = "TRV-000007"; decide⟩

/-- C2: for every search, the flight result set surfaced to the selection
layer has at most 8 entries, is sorted ascending by price, and equals the
first 8 of the first 12 price-sorted matches. -/
theorem search_flights_capped_sorted (flights : List Flight) (hotels : List Hotel)
    (st : SessionState) (o d dt : String) (bud : Int) (n : Nat) :
    (do_search_and_cache flights hotels st o d dt bud n).top_flights.length ≤ 8
    ∧ List.Sorted flightLe (do_search_and_cache flights hotels st o d dt bud n).top_flights
    ∧ (do_search_and_cache flights hotels st o d dt bud n).top_flights
        = (((flights.filter (flightPred o d dt)).insertionSort flightLe).take 12).take 8 := by
  refine ⟨?_, ?_, rfl⟩
  · show (List.take 8 _).length ≤ 8
    rw [List.length_take]
    omega
  · show List.Sorted flightLe (List.take 8 (List.take 12 _))
    exact sorted_take (sorted_take (List.sorted_insertionSort flightLe _) 12) 8

/-- C3: the hotel result set never contains a hotel with zero (or fewer)
available rooms or a price-per-night above the budget ceiling; with
budget 100 a hotel priced 120 is excluded even though city and
availability match, while a hotel priced exactly 100 survives the filter. -/
theorem search_hotels_exclusions :
    (∀ (flights : List Flight) (hotels : List Hotel) (st : SessionState)
        (o d dt : String) (bud : Int) (n : Nat) (h : Hotel),
        h ∈ (do_search_and_cache flights hotels st o d dt bud n).top_hotels →
          0 < h.availability_rooms ∧ h.price_per_night ≤ bud)
    ∧ (do_search_and_cache [] [hotelAt120, hotelAt100] initState
        "Delhi" "Paris" "2025-10-05" 100 3).top_hotels = [hotelAt100] := by
  constructor
  · intro flights hotels st o d dt bud n h hmem
    have hp := (mem_of_mem_search_hotels hmem).2
    simp only [hotelPred, Bool.and_eq_true, decide_eq_true_eq] at hp
    exact ⟨hp.2, hp.1.2⟩
  · decide

/-- C3 witness: the budget-100 scenario instantiating the bound. -/
theorem search_hotels_exclusions_witness :
    0 < hotelAt100.availability_rooms ∧ hotelAt100.price_per_night ≤ 100 :=
  search_hotels_exclusions.1 [] [hotelAt120, hotelAt100] initState
    "Delhi" "Paris" "2025-10-05" 100 3 hotelAt100 (by decide)

/-- C4: when creation timestamps are strictly increasing across saves,
`list_recent(limit)` returns the most recently created bookings first,
truncated to `limit`, each projected to the five summary columns
(id, origin, destination, travel date, creation time) only. -/
theorem list_recent_returns_newest_first (db : BookingDB) (limit : Nat)
    (hmono : db.rows.Pairwise (fun a b => a.created_at < b.created_at)) :
    db.list_recent limit = ((db.rows.reverse).map Booking.summary).take limit := by
  unfold BookingDB.list_recent
  rw [insertionSort_createdGe_eq_reverse db.rows hmono]

/-- C4 witness: after 5 saves, `list_recent 3` is exactly the summaries of
the 3 most recent bookings, most recent first. -/
theorem list_recent_returns_newest_first_witness :
    dbAfter5.rows.Pairwise (fun a b => a.created_at < b.created_at)
    ∧ dbAfter5.list_recent 3 =
        [⟨5, "a", "b5", "2025-10-05", 5⟩, ⟨4, "a", "b4", "2025-10-05", 4⟩,
         ⟨3, "a", "b3", "2025-10-05", 3⟩] := by
  refine ⟨by decide, ?_⟩
  rw [list_recent_returns_newest_first dbAfter5 3 (by decide)]
  decide

/-- C5: saving twice with identical inputs appends two distinct rows with
consecutive primary keys; the two receipts carry strictly increasing
booking ids and distinct confirmation codes, each code being `TRV-` plus
its own zero-padded id (so the codes differ only in the embedded id). -/
theorem save_twice_distinct_codes (db : BookingDB) (o d t : String)
    (f : Flight) (h : Hotel) (it : String) (n1 n2 : Nat) :
    ((db.save o d t f h it n1).1.save o d t f h it n2).1.rows
        = db.rows ++ [⟨db.next_id, o, d, t, f, h, it, n1⟩,
                      ⟨db.next_id + 1, o, d, t, f, h, it, n2⟩]
    ∧ (db.save o d t f h it n1).2.booking_id
        < ((db.save o d t f h it n1).1.save o d t f h it n2).2.booking_id
    ∧ (db.save o d t f h it n1).2.code
        ≠ ((db.save o d t f h it n1).1.save o d t f h it n2).2.code
    ∧ (db.save o d t f h it n1).2.code
        = "TRV-" ++ String.mk (pad6 (db.save o d t f h it n1).2.booking_id)
    ∧ ((db.save o d t f h it n1).1.save o d t f h it n2).2.code
        = "TRV-" ++ String.mk
            (pad6 ((db.save o d t f h it n1).1.save o d t f h it n2).2.booking_id) := by
  refine ⟨by simp [BookingDB.save], Nat.lt_succ_self _, ?_, rfl, rfl⟩
  intro hEq
  have h2 := @confirmation_code_inj db.next_id (db.next_id + 1) hEq
  omega

/-- C6: confirming is rejected, with the store untouched, whenever a
selection slot is empty (Python-falsy) or a selected identifier does not
resolve against the current result set; a save occurs only when both
selections resolve. -/
theorem confirm_requires_resolvable_selections (st : SessionState) (db : BookingDB)
    (o d t : String) (now : Nat) :
    ((falsy st.selected_flight_id || falsy st.selected_hotel_id) = true →
        confirm_and_save st db o d t now = (db, .error msgSelectBoth))
    ∧ ((falsy st.selected_flight_id || falsy st.selected_hotel_id) = false →
        (resolveFlight (st.selected_flight_id.getD "") st.top_flights = none ∨
            resolveHotel (st.selected_hotel_id.getD "") st.top_hotels = none) →
        confirm_and_save st db o d t now = (db, .error msgNotFound))
    ∧ (∀ r, (confirm_and_save st db o d t now).2 = .ok r →
        ∃ fo ho,
          resolveFlight (st.selected_flight_id.getD "") st.top_flights = some fo ∧
          resolveHotel (st.selected_hotel_id.getD "") st.top_hotels = some ho) := by
  refine ⟨?_, ?_, ?_⟩
  · intro hff
    simp [confirm_and_save, hff]
  · intro hff hres
    rcases hf : resolveFlight (st.selected_flight_id.getD "") st.top_flights with _ | fo <;>
      rcases hh : resolveHotel (st.selected_hotel_id.getD "") st.top_hotels with _ | ho <;>
        simp_all [confirm_and_save]
  · intro r hr
    cases hff : (falsy st.selected_flight_id || falsy st.selected_hotel_id) with
    | true => simp [confirm_and_save, hff] at hr
    | false =>
      rcases hf : resolveFlight (st.selected_flight_id.getD "") st.top_flights with _ | fo <;>
        rcases hh : resolveHotel (st.selected_hotel_id.getD "") st.top_hotels with _ | ho <;>
          simp_all [confirm_and_save]

/-- C6 witness: an empty selection is rejected with the selection message;
a stale selection over an empty result set is rejected with the lookup
message, the store unchanged in both cases. -/
theorem confirm_requires_resolvable_selections_witness :
    confirm_and_save initState emptyDB "o" "d" "t" 0 = (emptyDB, .error msgSelectBoth)
    ∧ confirm_and_save staleSelState emptyDB "o" "d" "t" 0
        = (emptyDB, .error msgNotFound) :=
  ⟨(confirm_requires_resolvable_selections initState emptyDB "o" "d" "t" 0).1 (by decide),
   (confirm_requires_resolvable_selections staleSelState emptyDB "o" "d" "t" 0).2.1
     (by decide) (Or.inl (by decide))⟩

/-- C7: a search replaces both result sets with the new criteria's results,
resets the itinerary text to empty, records the new last-search context,
and leaves both selected identifiers unchanged — so a stale selection
outside the new result set remains possible (final two conjuncts). -/
theorem search_replaces_results_keeps_selections (flights : List Flight)
    (hotels : List Hotel) (st : SessionState) (o d dt : String) (bud : Int) (n : Nat) :
    (do_search_and_cache flights hotels st o d dt bud n).selected_flight_id
        = st.selected_flight_id
    ∧ (do_search_and_cache flights hotels st o d dt bud n).selected_hotel_id
        = st.selected_hotel_id
    ∧ (do_search_and_cache flights hotels st o d dt bud n).itinerary_text = ""
    ∧ (do_search_and_cache flights hotels st o d dt bud n).top_flights
        = (((flights.filter (flightPred o d dt)).insertionSort flightLe).take 12).take 8
    ∧ (do_search_and_cache flights hotels st o d dt bud n).top_hotels
        = (((hotels.filter (hotelPred d bud)).insertionSort hotelLe).take 12).take 8
    ∧ (do_search_and_cache flights hotels st o d dt bud n).last_search
        = some ⟨o, d, dt, bud, n⟩
    ∧ (do_search_and_cache [] [] staleSelState
        "Delhi" "Paris" "2025-10-05" 100 3).selected_flight_id = some "F9"
    ∧ resolveFlight "F9" (do_search_and_cache [] [] staleSelState
        "Delhi" "Paris" "2025-10-05" 100 3).top_flights = none :=
  ⟨rfl, rfl, rfl, rfl, rfl, rfl, rfl, rfl⟩

/-- C8 counterexample: a flight whose stored origin carries a leading
space satisfies the claimed trim-both-sides predicate for the
`Delhi → Paris` criteria, yet the code's filter excludes it: the match
set and the surfaced result set are empty. -/
theorem flight_match_whitespace_counterexample :
    flightSpecPred "Delhi" "Paris" "2025-10-05" paddedOriginFlight = true
    ∧ [paddedOriginFlight].filter (flightPred "Delhi" "Paris" "2025-10-05") = []
    ∧ (do_search_and_cache [paddedOriginFlight] [] initState
        "Delhi" "Paris" "2025-10-05" 100 3).top_flights = [] := by
  decide

/-- C8 amended: a flight is in the match set exactly when its lowercased
(but untrimmed) origin and destination equal the trimmed, lowercased
criteria and its departure timestamp starts with the travel-date string;
the `Delhi → Paris` example returns exactly `[F1]`. -/
theorem flight_match_characterization :
    (∀ (flights : List Flight) (o d dt : String) (f : Flight),
        f ∈ flights.filter (flightPred o d dt) ↔
          f ∈ flights ∧ pyLower f.origin = pyLower (pyStrip o) ∧
            pyLower f.destination = pyLower (pyStrip d) ∧
            pyStartswith f.depart_datetime dt = true)
    ∧ (do_search_and_cache [sampleF1, sampleOtherDest] [] initState
        "Delhi" "Paris" "2025-10-05" 150 3).top_flights = [sampleF1] := by
  constructor
  · intro flights o d dt f
    simp [List.mem_filter, flightPred, Bool.and_eq_true, beq_iff_eq, and_assoc]
  · decide

/-- C8 amended witness: `F1` is in the match set of the example search. -/
theorem flight_match_characterization_witness :
    sampleF1 ∈ [sampleF1, sampleOtherDest].filter
        (flightPred "Delhi" "Paris" "2025-10-05") :=
  (flight_match_characterization.1 [sampleF1, sampleOtherDest]
    "Delhi" "Paris" "2025-10-05" sampleF1).mpr (by decide)

/-- C9 counterexample: two Paris hotels with equal price 50 and ratings 5
and 3 come back rating-ascending, so the result set is not sorted by the
claimed price-ascending / rating-descending order. -/
theorem hotel_sort_rating_counterexample :
    (do_search_and_cache [] [hotelRating5, hotelRating3] initState
        "Delhi" "Paris" "2025-10-05" 100 3).top_hotels = [hotelRating3, hotelRating5]
    ∧ ¬ List.Sorted specHotelLe
        (do_search_and_cache [] [hotelRating5, hotelRating3] initState
          "Delhi" "Paris" "2025-10-05" 100 3).top_hotels := by
  decide

/-- C9 amended: for every search the hotel result set is sorted ascending
by price-per-night with ties broken ascending (not descending) by rating. -/
theorem search_hotels_sorted_price_then_rating (flights : List Flight)
    (hotels : List Hotel) (st : SessionState) (o d dt : String) (bud : Int) (n : Nat) :
    List.Sorted hotelLe (do_search_and_cache flights hotels st o d dt bud n).top_hotels := by
  show List.Sorted hotelLe (List.take 8 (List.take 12 _))
  exact sorted_take (sorted_take (List.sorted_insertionSort hotelLe _) 12) 8

/-- C10: selections store the string form of the identifier; resolution
compares string forms on both sides, so an integer selection resolves to
the record with the equal-valued string identifier and vice versa, and the
booking-confirmation lookup succeeds through the same coercion. -/
theorem selection_stringly_resolution :
    (∀ (st : SessionState) (v : PyVal),
        (set_selected_flight st v).selected_flight_id = some (pyStr v))
    ∧ (∀ (st : SessionState) (v : PyVal),
        (set_selected_hotel st v).selected_hotel_id = some (pyStr v))
    ∧ (∀ (sel : String) (fl : List Flight) (f : Flight),
        f ∈ fl → pyStr f.flight_id = sel →
          ∃ g, resolveFlight sel fl = some g ∧ pyStr g.flight_id = sel)
    ∧ (∀ (sel : String) (hs : List Hotel) (h : Hotel),
        h ∈ hs → pyStr h.hotel_id = sel →
          ∃ g, resolveHotel sel hs = some g ∧ pyStr g.hotel_id = sel)
    ∧ (∀ (n : Int), pyStr (.int n) = pyStr (.str (toString n)))
    ∧ (confirm_and_save
        (set_selected_hotel
          (set_selected_flight
            { initState with top_flights := [strIdFlight], top_hotels := [intIdHotel] }
            (.int 7))
          (.str "9"))
        emptyDB "o" "d" "t" 0).2 = .ok ⟨1, confirmation_code 1⟩ := by
  refine ⟨fun _ _ => rfl, fun _ _ => rfl, ?_, ?_, fun _ => rfl, rfl⟩
  · intro sel fl f hmem hs
    obtain ⟨g, hg, hpg⟩ :=
      find?_eq_some_of_mem (fun g => pyStr g.flight_id == sel) fl f hmem
        (by show (pyStr f.flight_id == sel) = true; rw [hs]; simp)
    exact ⟨g, hg, by simpa using hpg⟩
  · intro sel hs h hmem hsel
    obtain ⟨g, hg, hpg⟩ :=
      find?_eq_some_of_mem (fun g => pyStr g.hotel_id == sel) hs h hmem
        (by show (pyStr h.hotel_id == sel) = true; rw [hsel]; simp)
    exact ⟨g, hg, by simpa using hpg⟩

/-- C10 witness: the flight with string id `"7"` is resolved by the
selection made with the integer 7. -/
theorem selection_stringly_resolution_witness :
    ∃ g, resolveFlight "7" [strIdFlight] = some g ∧ pyStr g.flight_id = "7" :=
  selection_stringly_resolution.2.2.1 "7" [strIdFlight] strIdFlight
    (by decide) (by decide)

end TravelApp
